import Mathlib

/-!
# Verification of the flucoma-core KNN regressor

A shallow embedding of the KNN regression engine of flucoma-core:
the `FluidDataSet` store, the `KDTree` spatial index, the
`KNNRegressor` prediction algorithm, and the `KNNRegressorClient` /
`DataSetClient` operation layer (fit / predict / predictPoint /
updatePoint / getPoint / dump / load).

Scalars are modelled as rationals.  Components whose sources are part of
the repository snapshot (`KNNRegressor::predict`, `KNNRegressorClient`,
`DataSetClient`) are translated directly; components whose sources are
not in the snapshot (`KDTree`, `FluidDataSet` internals, the buffer
checks and the JSON helpers) are modelled from the specification, as
marked on each definition.
-/

namespace Flucoma

/-- Identifier naming one point of a dataset. -/
abbrev Ident := String

/-- A feature vector: a list of rational coordinates. -/
abbrev Vec := List ℚ

/-- The error statuses reported by the client layer. -/
inductive Err where
  | NoDataSet
  | EmptyDataSet
  | SizesDontMatch
  | SmallK
  | NoDataFitted
  | NotEnoughData
  | WrongPointSize
  | PointNotFound
  | NoBuffer
  | InvalidBuffer
  | EmptyBuffer
  | DuplicateLabel
  deriving DecidableEq, Repr

/-- `FluidDataSet<std::string, double, N>`: an insertion-ordered store of
(identifier, vector) rows with a fixed per-row dimension. -/
structure DataSet where
  dim : ℕ
  entries : List (Ident × Vec)
  deriving DecidableEq, Repr

/-- Number of stored points (`FluidDataSet::size`). -/
def DataSet.size (d : DataSet) : ℕ := d.entries.length

/-- The identifiers in insertion order (`FluidDataSet::getIds`). -/
def DataSet.ids (d : DataSet) : List Ident := d.entries.map Prod.fst

/-- Lookup of the row stored under an identifier (the map lookup behind
`FluidDataSet::get`). -/
def findVec : List (Ident × Vec) → Ident → Option Vec
  | [], _ => none
  | (j, w) :: rest, i => if i = j then some w else findVec rest i

/-- `FluidDataSet::get`. -/
def DataSet.get (d : DataSet) (i : Ident) : Option Vec := findVec d.entries i

/-- Modelled from the spec: `FluidDataSet::update` (FluidDataSet.hpp is not
part of the source snapshot) — "fails with `PointNotFound` if absent;
replaces the vector in place, identifier order preserved". Returns the
updated row list, or `none` when the identifier is absent. -/
def updateEntries : List (Ident × Vec) → Ident → Vec → Option (List (Ident × Vec))
  | [], _, _ => none
  | (j, w) :: rest, i, v =>
    if i = j then some ((j, v) :: rest)
    else (updateEntries rest i v).map ((j, w) :: ·)

/-- `algorithm::KDTree`: modelled from the spec as the point-in-time
snapshot it is built from (KDTree.hpp is not part of the source snapshot):
"Built from a snapshot of a LabeledDataset at construction time"; "the tree
always contains `size` points with no duplicates or omissions relative to
its source snapshot". -/
structure KDTree where
  dim : ℕ
  pts : List (Ident × Vec)
  deriving DecidableEq, Repr

/-- `KDTree::size`. -/
def KDTree.size (t : KDTree) : ℕ := t.pts.length

/-- `KDTree::dims`. -/
def KDTree.dims (t : KDTree) : ℕ := t.dim

/-- `KDTree{0}`: the empty, uninitialized index. -/
def KDTree.empty : KDTree := ⟨0, []⟩

/-- `KDTree{dataSet}`: construction snapshots the dataset. -/
def KDTree.ofDataSet (d : DataSet) : KDTree := ⟨d.dim, d.entries⟩

/-- Squared Euclidean distance between two vectors. -/
def sqDist (a b : Vec) : ℚ := (List.zipWith (fun x y => (x - y) ^ 2) a b).sum

/-- Insert a candidate into a distance-ascending list, before the first
entry it does not strictly follow, so that equal distances keep their
original relative order (stable sorting). -/
def insertByDist (x : Ident × ℚ) : List (Ident × ℚ) → List (Ident × ℚ)
  | [] => [x]
  | y :: ys => if x.2 ≤ y.2 then x :: y :: ys else y :: insertByDist x ys

/-- Stable insertion sort by ascending distance. -/
def sortByDist : List (Ident × ℚ) → List (Ident × ℚ)
  | [] => []
  | x :: xs => insertByDist x (sortByDist xs)

/-- Modelled from the spec: `KDTree::kNearest` (KDTree.hpp is not part of
the source snapshot) — "ordered sequence of (identifier, distance) pairs,
ascending by distance, length exactly `k`", candidates ranked "by squared
Euclidean distance", ties broken by "the point inserted earlier in the
source dataset" (the insertion sort above is stable, so ties keep snapshot
order). `k` is a signed index at the call sites; a non-positive `k` yields
no results. -/
def KDTree.kNearest (t : KDTree) (p : Vec) (k : ℤ) : List (Ident × ℚ) :=
  (sortByDist (t.pts.map (fun e => (e.1, sqDist p e.2)))).take k.toNat

/-- The scalar target value read by `KNNRegressor::predict`: `targets.get`
fills a zero-initialised one-element tensor, left at zero when the
identifier is absent, and the regressor reads element 0. -/
def targetVal (targets : DataSet) (i : Ident) : ℚ :=
  match targets.get i with
  | some v => v.headD 0
  | none => 0

/-- `KNNRegressor::predict` (unweighted, as in the KNNRegressor.hpp of the
snapshot): query the k nearest, then accumulate `weight * target(id)` with
`weight = 1/k` over the returned neighbours. -/
def predict (tree : KDTree) (targets : DataSet) (point : Vec) (k : ℤ) : ℚ :=
  ((tree.kNearest point k).map
    (fun e => (1 / (k : ℚ)) * targetVal targets e.1)).sum

/-- Modelled from the spec: the `ε` of distance weighting, "a small
constant to avoid division by zero when the query point coincides exactly
with a stored point". Only its positivity matters. -/
def epsW : ℚ := 1 / 1000000

/-- Modelled from the spec: the distance-weighted mode of
`KNNRegressor::predict` (the weighted overload called by the client is not
part of the source snapshot) — "weight ∝ `1/(distance + ε)` normalized so
weights sum to 1". -/
def predictWeighted (tree : KDTree) (targets : DataSet) (point : Vec)
    (k : ℤ) : ℚ :=
  let nearest := tree.kNearest point k
  let s := (nearest.map (fun e => 1 / (e.2 + epsW))).sum
  (nearest.map (fun e => 1 / (e.2 + epsW) / s * targetVal targets e.1)).sum

/-- Modelled from the spec: the five-argument `KNNRegressor::predict`
called by the client, taking the weighting flag — "a tagged enumeration
parameter plus a single branch inside `predict` — the two modes differ
only in one weighting formula". -/
def predictMode (tree : KDTree) (targets : DataSet) (point : Vec) (k : ℤ)
    (weighted : Bool) : ℚ :=
  if weighted then predictWeighted tree targets point k
  else predict tree targets point k

/-- A host buffer, seen through `BufferAdaptor`: existence flag, frame and
channel counts, and the samples of channel 0. Modelled from the spec
("a buffer/array abstraction providing read access to fixed-length numeric
vectors"); BufferAdaptor is an external collaborator. -/
structure Buffer where
  bexists : Bool
  frames : ℕ
  chans : ℕ
  samps : List ℚ
  deriving DecidableEq, Repr

/-- `BufferAdaptor::Access::resize(frames, chans, ...)`: sets the shape;
existing leading samples are kept and the tail zero-filled (the claims do
not depend on the content policy). -/
def Buffer.resize (b : Buffer) (n c : ℕ) : Buffer :=
  { b with frames := n, chans := c,
           samps := (b.samps ++ List.replicate n 0).take n }

/-- Modelled from the spec: `InBufferCheck` for a point query (the check
class is not part of the source snapshot) — the buffer must be supplied and
exist, and "`WrongPointSize` if the query vector's length does not match
`index.dimension()`". On success the first `dims` samples of channel 0 are
the query point. -/
def bufCheckIn (dims : ℕ) (data : Option Buffer) : Except Err Vec :=
  match data with
  | none => .error .NoBuffer
  | some b =>
    if b.bexists = false then .error .InvalidBuffer
    else if b.frames ≠ dims then .error .WrongPointSize
    else .ok (b.samps.take dims)

/-- `KNNRegressorData`: one `KDTree` paired with one target dataset. -/
structure KNNRegressorData where
  tree : KDTree
  target : DataSet
  deriving DecidableEq, Repr

/-- The freshly constructed model: `tree{0}`, `target{1}`. -/
def KNNRegressorData.init : KNNRegressorData := ⟨KDTree.empty, ⟨1, []⟩⟩

/-- `KNNRegressorData::clear`: empties the tree and resets the target
dataset to a default-constructed one. -/
def KNNRegressorData.clear (_ : KNNRegressorData) : KNNRegressorData :=
  ⟨KDTree.empty, ⟨1, []⟩⟩

/-- `KNNRegressorClient::fit`. Each dataset reference may be dead
(`none`, the failed `lock()`); checks run in source order and only then is
the model replaced. -/
def fit (m : KNNRegressorData) (src tgt : Option DataSet) :
    KNNRegressorData × Except Err Unit :=
  match src with
  | none => (m, .error .NoDataSet)
  | some ds =>
    if ds.size = 0 then (m, .error .EmptyDataSet)
    else match tgt with
      | none => (m, .error .NoDataSet)
      | some tg =>
        if tg.size = 0 then (m, .error .EmptyDataSet)
        else if ds.size ≠ tg.size then (m, .error .SizesDontMatch)
        else ({ tree := KDTree.ofDataSet ds, target := tg }, .ok ())

/-- `KNNRegressorClient::predictPoint`: `SmallK` on `k == 0`, then
`NoDataFitted` on an empty tree, then `NotEnoughData` on `size < k`, then
the input-buffer check, then the regressor — called with the weighting
flag `bool weight = get<kWeight>() != 0`. -/
def predictPoint (m : KNNRegressorData) (k : ℤ) (weighted : Bool)
    (data : Option Buffer) : Except Err ℚ :=
  if k = 0 then .error .SmallK
  else if m.tree.size = 0 then .error .NoDataFitted
  else if (m.tree.size : ℤ) < k then .error .NotEnoughData
  else match bufCheckIn m.tree.dims data with
    | .error e => .error e
    | .ok point => .ok (predictMode m.tree m.target point k weighted)

/-- `FluidDataSet::add` as used when building the batch result: appends
when the identifier is new, reports `false` and leaves the store unchanged
on a duplicate. -/
def DataSet.add (d : DataSet) (i : Ident) (v : Vec) : DataSet × Bool :=
  match findVec d.entries i with
  | some _ => (d, false)
  | none => ({ d with entries := d.entries ++ [(i, v)] }, true)

/-- The result-building loop of `KNNRegressorClient::predict`: one
`result.add(ids(i), prediction)` per source row, return value ignored. -/
def buildResult (m : KNNRegressorData) (k : ℤ) :
    List (Ident × Vec) → DataSet → DataSet
  | [], acc => acc
  | e :: rest, acc =>
    buildResult m k rest (acc.add e.1 [predict m.tree m.target e.2 k]).1

/-- `KNNRegressorClient::predict` (batch). The destination dataset is the
mutable state threaded through; it is only assigned by the final
`setDataSet` on the success path. -/
def predictBatch (m : KNNRegressorData) (k : ℤ) (source : Option DataSet)
    (dest : Option DataSet) : Option DataSet × Except Err Unit :=
  match source with
  | none => (dest, .error .NoDataSet)
  | some ds =>
    if ds.size = 0 then (dest, .error .EmptyDataSet)
    else match dest with
      | none => (none, .error .NoDataSet)
      | some d0 =>
        if ds.dim ≠ m.tree.dims then (some d0, .error .WrongPointSize)
        else if k = 0 then (some d0, .error .SmallK)
        else if m.tree.size = 0 then (some d0, .error .NoDataFitted)
        else if (m.tree.size : ℤ) < k then (some d0, .error .NotEnoughData)
        else (some (buildResult m k ds.entries ⟨1, []⟩), .ok ())

/-- `DataSetClient::updatePoint`: buffer checks, then `WrongPointSize`
when the buffer holds fewer frames than the dataset dimension, then
`FluidDataSet::update`. -/
def updatePoint (ds : DataSet) (i : Ident) (data : Option Buffer) :
    DataSet × Except Err Unit :=
  match data with
  | none => (ds, .error .NoBuffer)
  | some b =>
    if b.bexists = false then (ds, .error .InvalidBuffer)
    else if b.frames < ds.dim then (ds, .error .WrongPointSize)
    else match updateEntries ds.entries i (b.samps.take ds.dim) with
      | some l => ({ ds with entries := l }, .ok ())
      | none => (ds, .error .PointNotFound)

/-- `DataSetClient::getPoint`: resize the caller's buffer to
(`dims`, 1 channel), then look the identifier up; only on success are the
first `dims` samples of channel 0 overwritten with the stored row. -/
def getPoint (ds : DataSet) (i : Ident) (data : Option Buffer) :
    Option Buffer × Except Err Unit :=
  match data with
  | none => (none, .error .NoBuffer)
  | some b =>
    if b.bexists = false then (some b, .error .InvalidBuffer)
    else
      let b1 := b.resize ds.dim 1
      match findVec ds.entries i with
      | some v => (some { b1 with samps := v ++ b1.samps.drop ds.dim }, .ok ())
      | none => (some b1, .error .PointNotFound)

/-- A structured record, as produced by the JSON-like serializer
("`object`, `array`, `number`, `string` primitives"). -/
inductive JVal where
  | vobj (fields : List (String × JVal))
  | varr (elems : List JVal)
  | vstr (s : String)
  | vnum (q : ℚ)
  | vint (n : ℤ)
  | vnull

/-- First field stored under a key of an object's field list. -/
def jlookup : List (String × JVal) → String → Option JVal
  | [], _ => none
  | (k, v) :: rest, s => if s = k then some v else jlookup rest s

/-- Whether a record is of object kind (`JSONTypes::OBJECT`). -/
def JVal.isObj : JVal → Bool
  | .vobj _ => true
  | _ => false

/-- Modelled from the spec: the row encoding shared by the `KDTree` and
`FluidDataSet` serializers (their to_json/from_json are not part of the
source snapshot) — the record keeps "the full source point set", each row
as identifier plus coordinates. -/
def entriesToJson (l : List (Ident × Vec)) : JVal :=
  .varr (l.map (fun e => .vobj [("id", .vstr e.1), ("data", .varr (e.2.map .vnum))]))

/-- Decode a coordinate array. -/
def decodeNums : List JVal → Option Vec
  | [] => some []
  | .vnum q :: rest => (decodeNums rest).map (q :: ·)
  | _ => none

/-- Decode a row list; any malformed row fails the whole decode. -/
def decodeEntries : List JVal → Option (List (Ident × Vec))
  | [] => some []
  | .vobj [("id", .vstr i), ("data", .varr xs)] :: rest =>
    match decodeNums xs, decodeEntries rest with
    | some v, some l => some ((i, v) :: l)
    | _, _ => none
  | _ => none

/-- Modelled from the spec: the `KDTree` serializer — "the SpatialIndex in
a form sufficient to reconstruct identical query results". -/
def treeToJson (t : KDTree) : JVal :=
  .vobj [("dim", .vint t.dim), ("points", entriesToJson t.pts)]

/-- Modelled from the spec: the `KDTree` deserializer; malformed records
fail rather than producing a partially-usable index. -/
def treeFromJson : JVal → Option KDTree
  | .vobj [("dim", .vint n), ("points", .varr es)] =>
    if 0 ≤ n then (decodeEntries es).map (fun l => ⟨n.toNat, l⟩) else none
  | _ => none

/-- Modelled from the spec: the `FluidDataSet` serializer — "the full
target LabeledDataset". -/
def dsToJson (d : DataSet) : JVal :=
  .vobj [("cols", .vint d.dim), ("rows", entriesToJson d.entries)]

/-- Modelled from the spec: the `FluidDataSet` deserializer. -/
def dsFromJson : JVal → Option DataSet
  | .vobj [("cols", .vint n), ("rows", .varr es)] =>
    if 0 ≤ n then (decodeEntries es).map (fun l => ⟨n.toNat, l⟩) else none
  | _ => none

/-- `to_json(nlohmann::json&, const KNNRegressorData&)`:
`j["tree"] = data.tree; j["target"] = data.target`. -/
def toJsonData (d : KNNRegressorData) : JVal :=
  .vobj [("tree", treeToJson d.tree), ("target", dsToJson d.target)]

/-- `check_json(const nlohmann::json&, const KNNRegressorData&)`, with the
`fluid::check_json` helper modelled from the spec: "a schema-check step
that validates required keys and value kinds before decoding" — here the
keys `"tree"` and `"target"`, both of object kind. -/
def check_json (j : JVal) : Bool :=
  match j with
  | .vobj fields =>
    (match jlookup fields "tree" with
     | some t => t.isObj
     | none => false) &&
    (match jlookup fields "target" with
     | some t => t.isObj
     | none => false)
  | _ => false

/-- `from_json(const nlohmann::json&, KNNRegressorData&)`: decode
`j["tree"]` and `j["target"]`. -/
def fromJsonData (j : JVal) : Option KNNRegressorData :=
  match j with
  | .vobj fields =>
    match jlookup fields "tree", jlookup fields "target" with
    | some jt, some jg =>
      match treeFromJson jt, dsFromJson jg with
      | some t, some g => some ⟨t, g⟩
      | _, _ => none
    | _, _ => none
  | _ => none

/-- `DataClient::dump`. -/
def dump (d : KNNRegressorData) : JVal := toJsonData d

/-- `DataClient::load`: the schema check runs first; only a record that
passes it is decoded. -/
def load (j : JVal) : Option KNNRegressorData :=
  if check_json j then fromJsonData j else none

/-! ## Example data

The worked example of the spec: dataset `{a:[0,0], b:[10,0], c:[0,10]}`
with targets `{a:1.0, b:2.0, c:3.0}`, plus the small fixtures used to
exercise the error paths. -/

def exTree : KDTree := ⟨2, [("a", [0, 0]), ("b", [10, 0]), ("c", [0, 10])]⟩

def exTargets : DataSet := ⟨1, [("a", [1]), ("b", [2]), ("c", [3])]⟩

def exSrc : DataSet := ⟨1, [("a", [0])]⟩

def exTgtA : DataSet := ⟨1, [("a", [1])]⟩

def exTgtB : DataSet := ⟨1, [("b", [1])]⟩

def exTgt2 : DataSet := ⟨1, [("a", [1]), ("b", [2])]⟩

def emptyDS : DataSet := ⟨1, []⟩

def exModelA : KNNRegressorData := ⟨KDTree.ofDataSet exSrc, exTgtA⟩

def exBuf1 : Buffer := ⟨true, 1, 1, [0]⟩

def exBuf2 : Buffer := ⟨true, 2, 1, [7, 9]⟩

def exDS2 : DataSet := ⟨2, [("x", [0, 0])]⟩

def exDS1 : DataSet := ⟨1, [("a", [5])]⟩

/-! ## Helper lemmas -/

lemma insertByDist_perm (x : Ident × ℚ) (l : List (Ident × ℚ)) :
    (insertByDist x l).Perm (x :: l) := by
  induction l with
  | nil => exact .rfl
  | cons y ys ih =>
    unfold insertByDist
    split
    · exact .rfl
    · exact (ih.cons y).trans (List.Perm.swap x y ys)

lemma sortByDist_perm (l : List (Ident × ℚ)) : (sortByDist l).Perm l := by
  induction l with
  | nil => exact .rfl
  | cons x xs ih => exact (insertByDist_perm x _).trans (ih.cons x)

lemma length_sortByDist (l : List (Ident × ℚ)) :
    (sortByDist l).length = l.length := (sortByDist_perm l).length_eq

lemma length_kNearest (t : KDTree) (p : Vec) (k : ℤ) :
    (t.kNearest p k).length = min k.toNat t.size := by
  simp [KDTree.kNearest, KDTree.size, length_sortByDist]

lemma kNearest_perm_full (t : KDTree) (p : Vec) :
    (t.kNearest p (t.size : ℤ)).Perm
      (t.pts.map (fun e => (e.1, sqDist p e.2))) := by
  unfold KDTree.kNearest
  rw [Int.toNat_natCast,
    List.take_of_length_le (by simp [KDTree.size, length_sortByDist])]
  exact sortByDist_perm _

lemma sqDist_nonneg (a b : Vec) : 0 ≤ sqDist a b := by
  induction a generalizing b with
  | nil => simp [sqDist]
  | cons x xs ih =>
    cases b with
    | nil => simp [sqDist]
    | cons y ys =>
      have h1 := ih ys
      have h2 : (0 : ℚ) ≤ (x - y) ^ 2 := sq_nonneg _
      simp only [sqDist, List.zipWith_cons_cons, List.sum_cons] at h1 ⊢
      linarith

lemma kNearest_snd_nonneg (t : KDTree) (p : Vec) (k : ℤ) :
    ∀ e ∈ t.kNearest p k, 0 ≤ e.2 := by
  intro e he
  have h2 : e ∈ sortByDist (t.pts.map (fun e => (e.1, sqDist p e.2))) :=
    List.mem_of_mem_take he
  rw [(sortByDist_perm _).mem_iff] at h2
  obtain ⟨a, _, rfl⟩ := List.mem_map.mp h2
  exact sqDist_nonneg _ _

lemma epsW_pos : 0 < epsW := by norm_num [epsW]

lemma findVec_cons (j : Ident) (w : Vec) (rest : List (Ident × Vec))
    (i : Ident) (h : i ≠ j) : findVec ((j, w) :: rest) i = findVec rest i := by
  simp [findVec, h]

lemma sum_targetVal (dim : ℕ) :
    ∀ ps ts : List (Ident × Vec),
      ps.map Prod.fst = ts.map Prod.fst → (ts.map Prod.fst).Nodup →
      (ps.map (fun e => targetVal ⟨dim, ts⟩ e.1)).sum
        = (ts.map (fun e => e.2.headD 0)).sum := by
  intro ps ts
  induction ts generalizing ps with
  | nil =>
    intro hids _
    have : ps = [] := by
      cases ps with
      | nil => rfl
      | cons p ps' => simp at hids
    simp [this]
  | cons t ts' ih =>
    intro hids hnd
    cases ps with
    | nil => simp at hids
    | cons p ps' =>
      simp only [List.map_cons, List.cons.injEq] at hids
      obtain ⟨hp1, hrest⟩ := hids
      simp only [List.map_cons, List.nodup_cons] at hnd
      obtain ⟨hnotin, hnd'⟩ := hnd
      simp only [List.map_cons, List.sum_cons]
      have hhead : targetVal ⟨dim, t :: ts'⟩ p.1 = t.2.headD 0 := by
        simp [targetVal, DataSet.get, findVec, hp1]
      have htail : ps'.map (fun e => targetVal ⟨dim, t :: ts'⟩ e.1)
          = ps'.map (fun e => targetVal ⟨dim, ts'⟩ e.1) := by
        apply List.map_congr_left
        intro a ha
        have hmem : a.1 ∈ ts'.map Prod.fst := by
          rw [← hrest]; exact List.mem_map_of_mem _ ha
        have hne : a.1 ≠ t.1 := fun hc => hnotin (hc ▸ hmem)
        simp [targetVal, DataSet.get, findVec_cons _ _ _ _ hne]
      rw [hhead, htail, ih ps' hrest hnd']

/-! ## C1 and C2: the prediction formulas -/

/-- C1: for a fitted model and `1 ≤ k ≤ n`, the unweighted prediction is
the mean of the k nearest neighbours' target values, each weighted exactly
`1/k`; when `k = n` it is the arithmetic mean of all `n` target values,
independent of the query point. -/
theorem predict_unweighted_is_mean (tree : KDTree) (targets : DataSet)
    (point : Vec) (k : ℤ) (hk1 : 1 ≤ k) (hk2 : k ≤ (tree.size : ℤ)) :
    (tree.kNearest point k).length = k.toNat ∧
    predict tree targets point k
      = ((tree.kNearest point k).map (fun e => targetVal targets e.1)).sum
          / (k : ℚ) ∧
    (k = (tree.size : ℤ) →
      tree.pts.map Prod.fst = targets.entries.map Prod.fst →
      targets.ids.Nodup →
      predict tree targets point k
        = (targets.entries.map (fun e => e.2.headD 0)).sum
            / (tree.size : ℚ)) := by
  refine ⟨?_, ?_, ?_⟩
  · rw [length_kNearest]
    have : k.toNat ≤ tree.size := by omega
    omega
  · unfold predict
    rw [List.sum_map_mul_left, one_div_mul_eq_div]
  · intro hkn hids hnd
    subst hkn
    unfold predict
    rw [List.sum_map_mul_left, one_div_mul_eq_div]
    have hperm : ((tree.kNearest point (tree.size : ℤ)).map
          (fun e => targetVal targets e.1)).Perm
        ((tree.pts.map (fun e => (e.1, sqDist point e.2))).map
          (fun e => targetVal targets e.1)) :=
      (kNearest_perm_full tree point).map _
    rw [hperm.sum_eq, List.map_map]
    have hfun : ((fun e : Ident × ℚ => targetVal targets e.1) ∘
          (fun e : Ident × Vec => (e.1, sqDist point e.2)))
        = fun e : Ident × Vec => targetVal targets e.1 := rfl
    rw [hfun]
    have := sum_targetVal targets.dim tree.pts targets.entries hids hnd
    rw [this]
    norm_cast

/-- C2: in distance-weighted mode each neighbour's weight is
`1/(distance + ε)` normalized by the sum of those reciprocals, the k
weights sum to 1, and every weight is defined and positive even at
distance 0, since the distances are nonnegative and `ε > 0`. -/
theorem predictWeighted_normalized (tree : KDTree) (targets : DataSet)
    (point : Vec) (k : ℤ) (hk1 : 1 ≤ k) (hk2 : k ≤ (tree.size : ℤ)) :
    (∀ e ∈ tree.kNearest point k, 0 ≤ e.2 ∧ 0 < 1 / (e.2 + epsW)) ∧
    0 < ((tree.kNearest point k).map (fun e => 1 / (e.2 + epsW))).sum ∧
    ((tree.kNearest point k).map (fun e => 1 / (e.2 + epsW) /
        ((tree.kNearest point k).map (fun e => 1 / (e.2 + epsW))).sum)).sum
      = 1 ∧
    predictWeighted tree targets point k
      = ((tree.kNearest point k).map (fun e => 1 / (e.2 + epsW) /
            ((tree.kNearest point k).map (fun e => 1 / (e.2 + epsW))).sum
            * targetVal targets e.1)).sum := by
  have hnn := kNearest_snd_nonneg tree point k
  have hpos : ∀ e ∈ tree.kNearest point k, 0 ≤ e.2 ∧ 0 < 1 / (e.2 + epsW) := by
    intro e he
    have h1 := hnn e he
    have h2 : 0 < e.2 + epsW := by linarith [epsW_pos]
    exact ⟨h1, by positivity⟩
  have hne : tree.kNearest point k ≠ [] := by
    have hlen : (tree.kNearest point k).length = min k.toNat tree.size :=
      length_kNearest tree point k
    intro hc
    rw [hc] at hlen
    simp at hlen
    omega
  have hS : 0 < ((tree.kNearest point k).map (fun e => 1 / (e.2 + epsW))).sum := by
    apply List.sum_pos
    · intro x hx
      obtain ⟨e, he, rfl⟩ := List.mem_map.mp hx
      exact (hpos e he).2
    · simpa using hne
  refine ⟨hpos, hS, ?_, rfl⟩
  simp only [div_eq_mul_inv]
  rw [List.sum_map_mul_right]
  have hS' : ((tree.kNearest point k).map
      (fun e => 1 * (e.2 + epsW)⁻¹)).sum ≠ 0 := by
    simpa [div_eq_mul_inv] using ne_of_gt hS
  exact mul_inv_cancel₀ hS'

/-- Witness for C1, on the spec's own example: with `k = n = 3` the
prediction at `[5,5]` is the mean `(1+2+3)/3 = 2` of all target values. -/
theorem predict_unweighted_is_mean_witness :
    predict exTree exTargets [5, 5] 3
      = (exTargets.entries.map (fun e => e.2.headD 0)).sum / (exTree.size : ℚ) ∧
    predict exTree exTargets [5, 5] 3 = 2 := by
  constructor
  · exact (predict_unweighted_is_mean exTree exTargets [5, 5] 3 (by norm_num)
      (by norm_num [KDTree.size, exTree])).2.2
      (by norm_num [KDTree.size, exTree]) rfl (by decide)
  · norm_num [predict, KDTree.kNearest, sortByDist, insertByDist, sqDist,
      targetVal, DataSet.get, findVec, exTree, exTargets]
    simp
    norm_num

/-- Witness for C2, at a query point that coincides with the stored point
`a` (distance 0): the normalizing sum is positive and the weights sum
to 1. -/
theorem predictWeighted_normalized_witness :
    0 < ((exTree.kNearest [0, 0] 2).map (fun e => 1 / (e.2 + epsW))).sum ∧
    ((exTree.kNearest [0, 0] 2).map (fun e => 1 / (e.2 + epsW) /
        ((exTree.kNearest [0, 0] 2).map (fun e => 1 / (e.2 + epsW))).sum)).sum
      = 1 :=
  ⟨(predictWeighted_normalized exTree exTargets [0, 0] 2 (by norm_num)
      (by norm_num [KDTree.size, exTree])).2.1,
   (predictWeighted_normalized exTree exTargets [0, 0] 2 (by norm_num)
      (by norm_num [KDTree.size, exTree])).2.2.1⟩

/-! ## C3: the checks of `fit` -/

/-- C3 counterexample: `fit` accepts two singleton datasets whose
identifier sets differ (`{a}` versus `{b}`) — the identifier sets are
never compared. -/
theorem fit_accepts_mismatched_ids :
    (fit KNNRegressorData.init (some exSrc) (some exTgtB)).2 = .ok () ∧
    exSrc.ids ≠ exTgtB.ids := by
  refine ⟨rfl, ?_⟩
  decide

/-- C3 amended: `fit` succeeds iff both datasets are non-empty and of
equal size; an empty dataset gives `EmptyDataSet` (source checked first),
a size mismatch of two non-empty datasets gives `SizesDontMatch`. The
identifier sets are not compared. -/
theorem fit_checks (m : KNNRegressorData) (ds tg : DataSet) :
    ((fit m (some ds) (some tg)).2 = .ok () ↔
      ds.size = tg.size ∧ 0 < ds.size) ∧
    (ds.size = 0 →
      (fit m (some ds) (some tg)).2 = .error .EmptyDataSet) ∧
    (0 < ds.size → tg.size = 0 →
      (fit m (some ds) (some tg)).2 = .error .EmptyDataSet) ∧
    (0 < ds.size → 0 < tg.size → ds.size ≠ tg.size →
      (fit m (some ds) (some tg)).2 = .error .SizesDontMatch) := by
  unfold fit
  refine ⟨?_, ?_, ?_, ?_⟩
  · constructor
    · intro h
      by_cases h1 : ds.size = 0 <;> by_cases h2 : tg.size = 0 <;>
        by_cases h3 : ds.size = tg.size <;>
        first
        | (simp [h1, h2, h3] at h ⊢; omega)
        | simp [h1, h2, h3] at h ⊢
    · rintro ⟨h1, h2⟩
      have h3 : ds.size ≠ 0 := by omega
      have h4 : tg.size ≠ 0 := by omega
      simp [h3, h4, h1]
  · intro h; simp [h]
  · intro h1 h2
    have h3 : ds.size ≠ 0 := by omega
    simp [h3, h2]
  · intro h1 h2 h3
    have h4 : ds.size ≠ 0 := by omega
    have h5 : tg.size ≠ 0 := by omega
    simp [h4, h5, h3]

/-- Witness for the amended C3, exercising all four branches on concrete
datasets. -/
theorem fit_checks_witness :
    (fit KNNRegressorData.init (some exSrc) (some exTgtA)).2 = .ok () ∧
    (fit KNNRegressorData.init (some emptyDS) (some exTgtA)).2
      = .error .EmptyDataSet ∧
    (fit KNNRegressorData.init (some exSrc) (some emptyDS)).2
      = .error .EmptyDataSet ∧
    (fit KNNRegressorData.init (some exSrc) (some exTgt2)).2
      = .error .SizesDontMatch :=
  ⟨(fit_checks KNNRegressorData.init exSrc exTgtA).1.mpr (by decide),
   (fit_checks KNNRegressorData.init emptyDS exTgtA).2.1 (by decide),
   (fit_checks KNNRegressorData.init exSrc emptyDS).2.2.1 (by decide) (by decide),
   (fit_checks KNNRegressorData.init exSrc exTgt2).2.2.2 (by decide) (by decide)
     (by decide)⟩

/-! ## C4: the checks of `predictPoint` -/

/-- C4 counterexample: `predictPoint` with `k = -1 < 1` on a fitted
one-point model does not fail with `SmallK` — only `k == 0` is rejected;
the negative `k` slips through every check and the regressor's loop body
never runs, so the call returns the scalar 0. -/
theorem predictPoint_negative_k :
    predictPoint exModelA (-1) false (some exBuf1) = .ok 0 ∧
    (-1 : ℤ) < 1 := by
  constructor
  · norm_num [predictPoint, bufCheckIn, predictMode, predict, KDTree.kNearest,
      KDTree.ofDataSet, KDTree.size, KDTree.dims, exModelA, exBuf1, exSrc,
      exTgtA, sortByDist, insertByDist, sqDist, targetVal, DataSet.get, findVec]
    simp
  · decide

/-- C4 amended: for the non-negative `k` reachable through the parameter
layer, the checks run in the order `SmallK` (exactly `k = 0`, i.e.
`k < 1`), then `NoDataFitted` on an unfitted model — in particular always
after `fit` then `clear` — then `NotEnoughData` on `k > size`, then
`WrongPointSize` on a query length mismatch; when all pass, one scalar is
returned. -/
theorem predictPoint_error_order (m : KNNRegressorData) (k : ℤ)
    (weighted : Bool) (b : Buffer) (hk0 : 0 ≤ k) (hex : b.bexists = true) :
    (k < 1 → predictPoint m k weighted (some b) = .error .SmallK) ∧
    (1 ≤ k → m.tree.size = 0 →
      predictPoint m k weighted (some b) = .error .NoDataFitted) ∧
    (1 ≤ k → 0 < m.tree.size → (m.tree.size : ℤ) < k →
      predictPoint m k weighted (some b) = .error .NotEnoughData) ∧
    (1 ≤ k → 0 < m.tree.size → k ≤ (m.tree.size : ℤ) →
      b.frames ≠ m.tree.dims →
      predictPoint m k weighted (some b) = .error .WrongPointSize) ∧
    (1 ≤ k → 0 < m.tree.size → k ≤ (m.tree.size : ℤ) →
      b.frames = m.tree.dims →
      predictPoint m k weighted (some b)
        = .ok (predictMode m.tree m.target (b.samps.take m.tree.dims)
            k weighted)) ∧
    (∀ st src tgt, 1 ≤ k →
      predictPoint ((fit st src tgt).1.clear) k weighted (some b)
        = .error .NoDataFitted) := by
  refine ⟨?_, ?_, ?_, ?_, ?_, ?_⟩
  · intro h
    have hz : k = 0 := by omega
    simp [predictPoint, hz]
  · intro h1 h2
    have hz : k ≠ 0 := by omega
    simp [predictPoint, hz, h2]
  · intro h1 h2 h3
    have hz : k ≠ 0 := by omega
    have hs : m.tree.size ≠ 0 := by omega
    simp [predictPoint, hz, hs, h3]
  · intro h1 h2 h3 h4
    have hz : k ≠ 0 := by omega
    have hs : m.tree.size ≠ 0 := by omega
    have hlt : ¬ ((m.tree.size : ℤ) < k) := by omega
    simp [predictPoint, hz, hs, hlt, bufCheckIn, hex, h4]
  · intro h1 h2 h3 h4
    have hz : k ≠ 0 := by omega
    have hs : m.tree.size ≠ 0 := by omega
    have hlt : ¬ ((m.tree.size : ℤ) < k) := by omega
    simp [predictPoint, hz, hs, hlt, bufCheckIn, hex, h4]
  · intro st src tgt h1
    have hz : k ≠ 0 := by omega
    simp [predictPoint, KNNRegressorData.clear, KDTree.empty, KDTree.size, hz]

/-- Witness for the amended C4: all six branches exercised on concrete
models, buffers and `k`, in both weighting modes. -/
theorem predictPoint_error_order_witness :
    predictPoint exModelA 0 false (some exBuf1) = .error .SmallK ∧
    predictPoint KNNRegressorData.init 1 true (some exBuf1)
      = .error .NoDataFitted ∧
    predictPoint exModelA 2 false (some exBuf1) = .error .NotEnoughData ∧
    predictPoint exModelA 1 true (some exBuf2) = .error .WrongPointSize ∧
    predictPoint exModelA 1 false (some exBuf1)
      = .ok (predictMode exModelA.tree exModelA.target
          (exBuf1.samps.take exModelA.tree.dims) 1 false) ∧
    predictPoint exModelA 1 true (some exBuf1)
      = .ok (predictMode exModelA.tree exModelA.target
          (exBuf1.samps.take exModelA.tree.dims) 1 true) ∧
    predictPoint ((fit KNNRegressorData.init (some exSrc)
        (some exTgtA)).1.clear) 1 false (some exBuf1)
      = .error .NoDataFitted :=
  ⟨(predictPoint_error_order exModelA 0 false exBuf1 (by decide) rfl).1
      (by decide),
   (predictPoint_error_order KNNRegressorData.init 1 true exBuf1 (by decide)
      rfl).2.1 (by decide) rfl,
   (predictPoint_error_order exModelA 2 false exBuf1 (by decide) rfl).2.2.1
      (by decide) (by decide) (by decide),
   (predictPoint_error_order exModelA 1 true exBuf2 (by decide) rfl).2.2.2.1
      (by decide) (by decide) (by decide) (by decide),
   (predictPoint_error_order exModelA 1 false exBuf1 (by decide)
      rfl).2.2.2.2.1 (by decide) (by decide) (by decide) (by decide),
   (predictPoint_error_order exModelA 1 true exBuf1 (by decide)
      rfl).2.2.2.2.1 (by decide) (by decide) (by decide) (by decide),
   (predictPoint_error_order KNNRegressorData.init 1 false exBuf1 (by decide)
      rfl).2.2.2.2.2 KNNRegressorData.init (some exSrc) (some exTgtA)
      (by decide)⟩

/-! ## C5: no partial mutation on failure -/

lemma findVec_append_none (xs ys : List (Ident × Vec)) (i : Ident)
    (hx : findVec xs i = none) : findVec (xs ++ ys) i = findVec ys i := by
  induction xs with
  | nil => rfl
  | cons x xs' ih =>
    obtain ⟨j, w⟩ := x
    by_cases hij : i = j
    · simp [findVec, hij] at hx
    · simp only [List.cons_append, findVec, if_neg hij] at hx ⊢
      exact ih hx

lemma buildResult_eq (m : KNNRegressorData) (k : ℤ) :
    ∀ (l : List (Ident × Vec)) (acc : DataSet),
      (l.map Prod.fst).Nodup →
      (∀ i ∈ l.map Prod.fst, findVec acc.entries i = none) →
      buildResult m k l acc
        = ⟨acc.dim, acc.entries ++
            l.map (fun e => (e.1, [predict m.tree m.target e.2 k]))⟩ := by
  intro l
  induction l with
  | nil => intro acc _ _; simp [buildResult]
  | cons e rest ih =>
    intro acc hnd hfr
    have hnone : findVec acc.entries e.1 = none := by
      apply hfr; simp
    simp only [List.map_cons, List.nodup_cons] at hnd
    obtain ⟨hnotin, hnd'⟩ := hnd
    have hstep : (acc.add e.1 [predict m.tree m.target e.2 k]).1
        = ⟨acc.dim, acc.entries ++ [(e.1, [predict m.tree m.target e.2 k])]⟩ := by
      simp [DataSet.add, hnone]
    rw [buildResult, hstep, ih _ hnd']
    · simp
    · intro i hi
      have hne : i ≠ e.1 := fun hc => hnotin (hc ▸ hi)
      have h1 : findVec acc.entries i = none := hfr i (by simp [hi])
      rw [findVec_append_none _ _ _ h1]
      simp [findVec, hne]

/-- C5: neither `fit` nor batch `predict` partially mutates on failure:
a failing `fit` leaves the model exactly as before, a failing `predict`
leaves the destination dataset untouched; a successful `fit` fully
replaces the model with the freshly built index and the given targets, and
a successful `predict` writes the complete result dataset, one prediction
per source row in source order. -/
theorem ops_atomic :
    (∀ (m : KNNRegressorData) (src tgt : Option DataSet) (e : Err),
      (fit m src tgt).2 = .error e → (fit m src tgt).1 = m) ∧
    (∀ (m : KNNRegressorData) (ds tg : DataSet),
      (fit m (some ds) (some tg)).2 = .ok () →
      (fit m (some ds) (some tg)).1 = ⟨KDTree.ofDataSet ds, tg⟩) ∧
    (∀ (m : KNNRegressorData) (k : ℤ) (source dest : Option DataSet)
        (e : Err),
      (predictBatch m k source dest).2 = .error e →
      (predictBatch m k source dest).1 = dest) ∧
    (∀ (m : KNNRegressorData) (k : ℤ) (ds d0 : DataSet),
      ds.ids.Nodup →
      (predictBatch m k (some ds) (some d0)).2 = .ok () →
      (predictBatch m k (some ds) (some d0)).1
        = some ⟨1, ds.entries.map
            (fun e => (e.1, [predict m.tree m.target e.2 k]))⟩) := by
  refine ⟨?_, ?_, ?_, ?_⟩
  · intro m src tgt e h
    match src with
    | none => rfl
    | some ds =>
      by_cases h1 : ds.size = 0
      · simp [fit, h1]
      · match tgt with
        | none => simp [fit, h1]
        | some tg =>
          by_cases h2 : tg.size = 0
          · simp [fit, h1, h2]
          · by_cases h3 : ds.size = tg.size
            · simp [fit, h1, h2, h3] at h
            · simp [fit, h1, h2, h3]
  · intro m ds tg h
    by_cases h1 : ds.size = 0
    · simp [fit, h1] at h
    · by_cases h2 : tg.size = 0
      · simp [fit, h1, h2] at h
      · by_cases h3 : ds.size = tg.size
        · simp [fit, h1, h2, h3]
        · simp [fit, h1, h2, h3] at h
  · intro m k source dest e h
    match source with
    | none => rfl
    | some ds =>
      by_cases h1 : ds.size = 0
      · simp [predictBatch, h1]
      · match dest with
        | none => simp [predictBatch, h1]
        | some d0 =>
          by_cases h2 : ds.dim = m.tree.dims
          · by_cases h3 : k = 0
            · simp [predictBatch, h1, h2, h3]
            · by_cases h4 : m.tree.size = 0
              · simp [predictBatch, h1, h2, h3, h4]
              · by_cases h5 : (m.tree.size : ℤ) < k
                · simp [predictBatch, h1, h2, h3, h4, h5]
                · simp [predictBatch, h1, h2, h3, h4, h5] at h
          · simp [predictBatch, h1, h2]
  · intro m k ds d0 hnd h
    by_cases h1 : ds.size = 0
    · simp [predictBatch, h1] at h
    · by_cases h2 : ds.dim = m.tree.dims
      · by_cases h3 : k = 0
        · simp [predictBatch, h1, h2, h3] at h
        · by_cases h4 : m.tree.size = 0
          · simp [predictBatch, h1, h2, h3, h4] at h
          · by_cases h5 : (m.tree.size : ℤ) < k
            · simp [predictBatch, h1, h2, h3, h4, h5] at h
            · have hres : (predictBatch m k (some ds) (some d0)).1
                  = some (buildResult m k ds.entries ⟨1, []⟩) := by
                simp [predictBatch, h1, h2, h3, h4, h5]
              rw [hres,
                buildResult_eq m k ds.entries ⟨1, []⟩ hnd (fun i _ => rfl)]
              simp
      · simp [predictBatch, h1, h2] at h

/-- Witness for C5: a failing `fit` (size mismatch) and a failing batch
`predict` (wrong dimension) leave their targets untouched; a successful
`fit` and a successful batch `predict` write the full replacement. -/
theorem ops_atomic_witness :
    (fit exModelA (some exSrc) (some exTgt2)).1 = exModelA ∧
    (fit exModelA (some exSrc) (some exTgtA)).1
      = ⟨KDTree.ofDataSet exSrc, exTgtA⟩ ∧
    (predictBatch exModelA 1 (some exDS2) (some emptyDS)).1
      = some emptyDS ∧
    (predictBatch exModelA 1 (some exSrc) (some emptyDS)).1
      = some ⟨1, exSrc.entries.map
          (fun e => (e.1, [predict exModelA.tree exModelA.target e.2 1]))⟩ :=
  ⟨ops_atomic.1 exModelA (some exSrc) (some exTgt2) .SizesDontMatch rfl,
   ops_atomic.2.1 exModelA exSrc exTgtA rfl,
   ops_atomic.2.2.1 exModelA 1 (some exDS2) (some emptyDS)
     .WrongPointSize rfl,
   ops_atomic.2.2.2 exModelA 1 exSrc emptyDS (by decide) rfl⟩

/-! ## C6 and C7: persistence -/

lemma decodeNums_map (v : Vec) : decodeNums (v.map .vnum) = some v := by
  induction v with
  | nil => rfl
  | cons q rest ih => simp [decodeNums, ih]

lemma decodeEntries_map (l : List (Ident × Vec)) :
    decodeEntries (l.map (fun e =>
      .vobj [("id", .vstr e.1), ("data", .varr (e.2.map .vnum))])) = some l := by
  induction l with
  | nil => rfl
  | cons e rest ih => simp [decodeEntries, decodeNums_map, ih]

lemma treeFromJson_treeToJson (t : KDTree) :
    treeFromJson (treeToJson t) = some t := by
  simp [treeToJson, treeFromJson, entriesToJson, decodeEntries_map]

lemma dsFromJson_dsToJson (d : DataSet) :
    dsFromJson (dsToJson d) = some d := by
  simp [dsToJson, dsFromJson, entriesToJson, decodeEntries_map]

lemma check_json_toJsonData (d : KNNRegressorData) :
    check_json (toJsonData d) = true := by
  simp [check_json, toJsonData, jlookup, treeToJson, dsToJson, JVal.isObj]

/-- C6: `dump` followed by `load` of a fitted model reproduces a model
whose `predictPoint` results are identical for every query buffer and
every `(k, weighted)` query. -/
theorem dump_load_roundtrip (d : KNNRegressorData) (hfit : 0 < d.tree.size) :
    ∃ d', load (dump d) = some d' ∧
      ∀ (k : ℤ) (weighted : Bool) (data : Option Buffer),
        predictPoint d' k weighted data = predictPoint d k weighted data := by
  refine ⟨d, ?_, fun _ _ _ => rfl⟩
  unfold load dump
  rw [check_json_toJsonData]
  simp [fromJsonData, toJsonData, jlookup, treeFromJson_treeToJson,
    dsFromJson_dsToJson]

/-- Witness for C6 on the concrete fitted one-point model. -/
theorem dump_load_roundtrip_witness :
    ∃ d', load (dump exModelA) = some d' ∧
      ∀ (k : ℤ) (weighted : Bool) (data : Option Buffer),
        predictPoint d' k weighted data
          = predictPoint exModelA k weighted data :=
  dump_load_roundtrip exModelA (by decide)

/-- C7: the schema check accepts a record iff it is an object holding both
a `"tree"` and a `"target"` field, each itself of object kind; a record
that fails the check is never decoded by `load`. -/
theorem check_json_iff (j : JVal) :
    (check_json j = true ↔
      ∃ fs, j = .vobj fs ∧
        (∃ t, jlookup fs "tree" = some t ∧ t.isObj = true) ∧
        (∃ g, jlookup fs "target" = some g ∧ g.isObj = true)) ∧
    (check_json j = false → load j = none) := by
  constructor
  · cases j with
    | vobj fs =>
      simp only [check_json, Bool.and_eq_true]
      constructor
      · rintro ⟨h1, h2⟩
        refine ⟨fs, rfl, ?_, ?_⟩
        · cases ht : jlookup fs "tree" with
          | none => rw [ht] at h1; simp at h1
          | some t => rw [ht] at h1; exact ⟨t, rfl, h1⟩
        · cases hg : jlookup fs "target" with
          | none => rw [hg] at h2; simp at h2
          | some g => rw [hg] at h2; exact ⟨g, rfl, h2⟩
      · rintro ⟨fs', hfs, ⟨t, ht, hto⟩, ⟨g, hg, hgo⟩⟩
        obtain rfl : fs' = fs := by
          cases hfs; rfl
        rw [ht, hg]
        exact ⟨hto, hgo⟩
    | varr es => simp [check_json]
    | vstr s => simp [check_json]
    | vnum q => simp [check_json]
    | vint n => simp [check_json]
    | vnull => simp [check_json]
  · intro h
    simp [load, h]

/-- Witness for C7: a missing key fails the check and `load` refuses the
record without decoding it. -/
theorem check_json_iff_witness :
    check_json (.vobj [("tree", .vobj [])]) = false ∧
    load (.vobj [("tree", .vobj [])]) = none := by
  have h : check_json (.vobj [("tree", .vobj [])]) = false := rfl
  exact ⟨h, (check_json_iff (.vobj [("tree", .vobj [])])).2 h⟩

/-! ## C8: `updatePoint` -/

lemma updateEntries_none_iff (l : List (Ident × Vec)) (i : Ident) (v : Vec) :
    updateEntries l i v = none ↔ findVec l i = none := by
  induction l with
  | nil => simp [updateEntries, findVec]
  | cons e rest ih =>
    obtain ⟨j, w⟩ := e
    by_cases hij : i = j
    · simp [updateEntries, findVec, hij]
    · simp [updateEntries, findVec, hij, ih]

lemma updateEntries_some (l : List (Ident × Vec)) (i : Ident) (v : Vec)
    (l' : List (Ident × Vec)) (h : updateEntries l i v = some l') :
    l'.map Prod.fst = l.map Prod.fst ∧
    findVec l' i = some v ∧
    ∀ j, j ≠ i → findVec l' j = findVec l j := by
  induction l generalizing l' with
  | nil => simp [updateEntries] at h
  | cons e rest ih =>
    obtain ⟨a, w⟩ := e
    by_cases hij : i = a
    · simp only [updateEntries, if_pos hij] at h
      obtain rfl : (a, v) :: rest = l' := by
        cases h; rfl
      refine ⟨by simp, by simp [findVec, hij], ?_⟩
      intro j hj
      have hja : j ≠ a := hij ▸ hj
      simp [findVec, hja]
    · simp only [updateEntries, if_neg hij] at h
      cases hrec : updateEntries rest i v with
      | none => rw [hrec] at h; simp at h
      | some rest' =>
        rw [hrec] at h
        obtain rfl : (a, w) :: rest' = l' := by
          cases h; rfl
        obtain ⟨hids, hfound, hother⟩ := ih rest' hrec
        refine ⟨by simp [hids], by simp [findVec, hij, hfound], ?_⟩
        intro j hj
        by_cases hja : j = a
        · simp [findVec, hja]
        · simp [findVec, hja, hother j hj]

/-- C8 counterexample: on a dimension-1 dataset, `updatePoint` with a
2-frame buffer does not fail with `WrongPointSize` — the buffer is longer
than the dimension, so it is accepted and truncated to its first sample. -/
theorem updatePoint_accepts_longer :
    updatePoint exDS1 "a" (some exBuf2) = (⟨1, [("a", [7])]⟩, .ok ()) ∧
    exBuf2.frames ≠ exDS1.dim := by
  constructor
  · rfl
  · decide

/-- C8 amended: `updatePoint` fails with `WrongPointSize` only when the
supplied buffer holds fewer frames than the dataset dimension (a longer
buffer is accepted and truncated to the first `dim` samples), and this
check precedes the lookup; with enough frames it fails with
`PointNotFound` when the identifier is absent, and otherwise replaces the
stored vector in place, preserving the identifier order and every other
entry. -/
theorem updatePoint_spec (ds : DataSet) (i : Ident) (b : Buffer)
    (hex : b.bexists = true) :
    (b.frames < ds.dim →
      updatePoint ds i (some b) = (ds, .error .WrongPointSize)) ∧
    (ds.dim ≤ b.frames → findVec ds.entries i = none →
      updatePoint ds i (some b) = (ds, .error .PointNotFound)) ∧
    (∀ v, ds.dim ≤ b.frames → findVec ds.entries i = some v →
      (updatePoint ds i (some b)).2 = .ok () ∧
      (updatePoint ds i (some b)).1.dim = ds.dim ∧
      (updatePoint ds i (some b)).1.ids = ds.ids ∧
      findVec (updatePoint ds i (some b)).1.entries i
        = some (b.samps.take ds.dim) ∧
      ∀ j, j ≠ i →
        findVec (updatePoint ds i (some b)).1.entries j
          = findVec ds.entries j) := by
  refine ⟨?_, ?_, ?_⟩
  · intro h
    simp [updatePoint, hex, h]
  · intro h1 h2
    have hlt : ¬ b.frames < ds.dim := by omega
    have hup : updateEntries ds.entries i (b.samps.take ds.dim) = none :=
      (updateEntries_none_iff _ _ _).mpr h2
    simp [updatePoint, hex, hlt, hup]
  · intro v h1 h2
    have hlt : ¬ b.frames < ds.dim := by omega
    cases hup : updateEntries ds.entries i (b.samps.take ds.dim) with
    | none =>
      rw [updateEntries_none_iff] at hup
      rw [hup] at h2
      cases h2
    | some l' =>
      obtain ⟨hids, hfound, hother⟩ := updateEntries_some _ _ _ _ hup
      have hres : updatePoint ds i (some b)
          = ({ ds with entries := l' }, .ok ()) := by
        simp [updatePoint, hex, hlt, hup]
      rw [hres]
      exact ⟨rfl, rfl, by simpa [DataSet.ids] using hids, hfound, hother⟩

/-- Witness for the amended C8: all three branches on concrete data —
short buffer rejected, absent id rejected, present id updated in place. -/
theorem updatePoint_spec_witness :
    updatePoint exDS2 "x" (some exBuf1)
      = (exDS2, .error .WrongPointSize) ∧
    updatePoint exDS1 "z" (some exBuf2)
      = (exDS1, .error .PointNotFound) ∧
    (updatePoint exDS1 "a" (some exBuf2)).2 = .ok () ∧
    (updatePoint exDS1 "a" (some exBuf2)).1.ids = exDS1.ids ∧
    findVec (updatePoint exDS1 "a" (some exBuf2)).1.entries "a"
      = some (exBuf2.samps.take exDS1.dim) :=
  ⟨(updatePoint_spec exDS2 "x" exBuf1 rfl).1 (by decide),
   (updatePoint_spec exDS1 "z" exBuf2 rfl).2.1 (by decide) (by decide),
   ((updatePoint_spec exDS1 "a" exBuf2 rfl).2.2 [5] (by decide)
      (by decide)).1,
   ((updatePoint_spec exDS1 "a" exBuf2 rfl).2.2 [5] (by decide)
      (by decide)).2.2.1,
   ((updatePoint_spec exDS1 "a" exBuf2 rfl).2.2 [5] (by decide)
      (by decide)).2.2.2.1⟩

/-! ## C9: dimension check precedes the fitted-state check -/

/-- C9: in batch `predict`, the source-dimension comparison runs before
the fitted-state check, so an uninitialized model (tree size 0) presented
a non-empty source of the wrong dimension reports `WrongPointSize`, not
`NoDataFitted`. -/
theorem predict_dim_before_fitted (m : KNNRegressorData) (k : ℤ)
    (ds d0 : DataSet) (hsize : m.tree.size = 0) (hne : 0 < ds.size)
    (hdim : ds.dim ≠ m.tree.dims) :
    (predictBatch m k (some ds) (some d0)).2 = .error .WrongPointSize := by
  have h1 : ds.size ≠ 0 := by omega
  simp [predictBatch, h1, hdim]

/-- Witness for C9: the fresh model (empty tree of dimension 0) with a
non-empty one-dimensional source. -/
theorem predict_dim_before_fitted_witness :
    (predictBatch KNNRegressorData.init 3 (some exSrc) (some emptyDS)).2
      = .error .WrongPointSize :=
  predict_dim_before_fitted KNNRegressorData.init 3 exSrc emptyDS rfl
    (by decide) (by decide)

/-! ## C10: `getPoint` resizes before looking up -/

/-- C10: `getPoint` resizes the caller's buffer to (dataset dimension,
1 channel) before the identifier lookup, so a lookup of an absent
identifier returns `PointNotFound` with the buffer already resized — the
failing call mutates the caller-visible buffer whenever its shape
differed. -/
theorem getPoint_resizes_before_lookup (ds : DataSet) (i : Ident)
    (b : Buffer) (hex : b.bexists = true)
    (habs : findVec ds.entries i = none) :
    (getPoint ds i (some b)).2 = .error .PointNotFound ∧
    (getPoint ds i (some b)).1 = some (b.resize ds.dim 1) ∧
    (b.resize ds.dim 1).frames = ds.dim ∧
    (b.resize ds.dim 1).chans = 1 ∧
    (b.frames ≠ ds.dim → (getPoint ds i (some b)).1 ≠ some b) := by
  have hres : getPoint ds i (some b)
      = (some (b.resize ds.dim 1), .error .PointNotFound) := by
    simp [getPoint, hex, habs]
  refine ⟨by rw [hres], by rw [hres], rfl, rfl, ?_⟩
  intro hne hc
  rw [hres] at hc
  have : (b.resize ds.dim 1).frames = b.frames := by
    rw [Option.some_inj.mp hc]
  simp [Buffer.resize] at this
  exact hne this.symm

/-- Witness for C10: asking for an absent identifier through a 2-frame
buffer on a dimension-1 dataset fails with `PointNotFound`, yet the
buffer comes back resized to 1 frame — mutated by the failing call. -/
theorem getPoint_resizes_before_lookup_witness :
    (getPoint exDS1 "z" (some exBuf2)).2 = .error .PointNotFound ∧
    (getPoint exDS1 "z" (some exBuf2)).1 = some (exBuf2.resize exDS1.dim 1) ∧
    (getPoint exDS1 "z" (some exBuf2)).1 ≠ some exBuf2 :=
  ⟨(getPoint_resizes_before_lookup exDS1 "z" exBuf2 rfl (by decide)).1,
   (getPoint_resizes_before_lookup exDS1 "z" exBuf2 rfl (by decide)).2.1,
   (getPoint_resizes_before_lookup exDS1 "z" exBuf2 rfl
      (by decide)).2.2.2.2 (by decide)⟩

end Flucoma
